import Mathlib

/-!
Verification of the UDP protocol module of libparistraceroute
(`libparistraceroute/protocols/udp.c`).

Buffers are modelled as `List Nat` of byte values; offsets into a buffer are
`Nat` indices.  The C functions of `udp.c` are translated statement by
statement into pure Lean functions; memory writes become `List.set`, `memcpy`
becomes concatenation / `List.take`, and the single heap allocation of
`udp_write_checksum` is driven by an explicit allocation oracle (`allocOk`),
with an alloc/free ledger recording every `malloc`/`free` the function
performs.  Helpers that `udp.c` uses but whose implementation lives outside
this file's sources (`csum`, `readField`, `ipv4_pseudo_header_create`, the
`END_PROTOCOL_FIELDS` terminator) are modelled from the specification and
carry a doc comment saying so.
-/

/-- Error kinds of the protocol layer, as named by the specification.
`udp.c` signals `MissingPseudoHeader` by `errno = EINVAL; return false;` and
`AllocationFailure` by `return false` after a failed `malloc`. -/
inductive ProtoError where
  | MissingPseudoHeader
  | AllocationFailure
  | UnsupportedIpVersion
  | TruncatedInput
deriving DecidableEq, Repr

/-- Wire types of protocol fields; `udp.c` only uses `TYPE_INT16`. -/
inductive fieldtype where
  | TYPE_INT16
deriving DecidableEq, Repr

/-- One entry of a protocol field descriptor table
(`protocol_field_t` in the C sources). -/
structure protocol_field where
  key : String
  type : fieldtype
  offset : Nat
deriving DecidableEq, Repr

/-- The UDP field descriptor table `udp_fields` of `udp.c`: four `TYPE_INT16`
descriptors at the `offsetof` positions of `struct udphdr` (source port at 0,
destination port at 2, length at 4, checksum at 6).

Modelled from the spec: the `END_PROTOCOL_FIELDS` terminator macro comes from
`protocol.h`, which is not among the sources; following the specification's
four-entry field table it is modelled as a terminator that contributes no
field descriptor. -/
def udp_fields : List protocol_field :=
  [ { key := "src_port", type := fieldtype.TYPE_INT16, offset := 0 },
    { key := "dst_port", type := fieldtype.TYPE_INT16, offset := 2 },
    { key := "length",   type := fieldtype.TYPE_INT16, offset := 4 },
    { key := "checksum", type := fieldtype.TYPE_INT16, offset := 6 } ]

/-- `udp_get_num_fields` of `udp.c`:
`sizeof(udp_fields) / sizeof(protocol_field_t)`, i.e. the number of entries
of the descriptor table. -/
def udp_get_num_fields : Nat :=
  udp_fields.length

/-- `udp_get_header_size` of `udp.c`: ignores its argument (an optional
header buffer) and returns `sizeof(struct udphdr)`, which is 8 bytes. -/
def udp_get_header_size (udp_header : Option (List Nat)) : Nat := 8

/-- The in-memory `struct udphdr`: four 16-bit fields holding host-order
values. -/
structure udphdr where
  source : Nat
  dest : Nat
  len : Nat
  check : Nat
deriving DecidableEq, Repr

/-- The `udp_default` template of `udp.c`: source and destination port 2828,
length 0, checksum 0 — stored as host-order integers with no `htons`
conversion. -/
def udp_default : udphdr :=
  { source := 2828, dest := 2828, len := 0, check := 0 }

/-- Serialization of one 16-bit host integer into its two in-memory bytes.
A big-endian host stores the high byte first; a little-endian host stores the
low byte first. -/
def hostBytes16 (bigEndianHost : Bool) (v : Nat) : List Nat :=
  if bigEndianHost then [v / 256 % 256, v % 256] else [v % 256, v / 256 % 256]

/-- The byte image of a `struct udphdr` on a host with the given endianness:
the four 16-bit fields at offsets 0, 2, 4, 6. -/
def udphdrBytes (bigEndianHost : Bool) (h : udphdr) : List Nat :=
  hostBytes16 bigEndianHost h.source ++ hostBytes16 bigEndianHost h.dest ++
  hostBytes16 bigEndianHost h.len ++ hostBytes16 bigEndianHost h.check

/-- `udp_write_default_header` of `udp.c`: always returns
`sizeof(struct udphdr)` (8); when the buffer is non-null it first `memcpy`s
the byte image of `udp_default` (8 bytes, host byte order) over the start of
the buffer.  The result pairs the returned size with the buffer after the
call. -/
def udp_write_default_header (bigEndianHost : Bool) (udp_header : Option (List Nat)) :
    Nat × Option (List Nat) :=
  match udp_header with
  | none => (8, none)
  | some b => (8, some (udphdrBytes bigEndianHost udp_default ++ b.drop 8))

/-- Big-endian (network byte order) read of the 16-bit word at byte offset
`off` of a buffer. -/
def be16read (buf : List Nat) (off : Nat) : Nat :=
  256 * buf.getD off 0 + buf.getD (off + 1) 0

/-- Modelled from the spec: the generic field reader `readField` of the
protocol layer (not among the sources; only its descriptor table and callers
are).  Per the specification it performs a byte-order-aware access at the
descriptor's offset sized per its wire type, converting from network byte
order: for the `TYPE_INT16` fields used here, a big-endian 16-bit read. -/
def readField (headerBytes : List Nat) (f : protocol_field) : Nat :=
  be16read headerBytes f.offset

/-- Big-endian 16-bit word sum of a byte buffer: consecutive byte pairs form
words high byte first; an odd trailing byte is the high byte of a final word
whose low byte is zero. -/
def wordSum : List Nat → Nat
  | [] => 0
  | [b] => 256 * b
  | b1 :: b2 :: rest => 256 * b1 + b2 + wordSum rest

/-- Repeated end-around carry fold: while the sum exceeds 16 bits, add the
carry above the low 16 bits back in; stops when no carry remains. -/
def foldCarry (s : Nat) : Nat :=
  if h : s < 65536 then s
  else foldCarry (s % 65536 + s / 65536)
termination_by s
decreasing_by
  have hq : 1 ≤ s / 65536 := Nat.one_le_div_iff (by omega) |>.mpr (by omega)
  omega

/-- Modelled from the spec: the Internet checksum engine `csum` declared in
`protocol.h` (its implementation is not among the sources).  Per the
specification it is the RFC 1071 algorithm: one's-complement sum of the
16-bit big-endian words of the buffer (odd trailing byte padded with a zero
low byte), end-around carry folded until no carry remains, and finally
complemented. -/
def csum (bytes : List Nat) : Nat :=
  65535 - foldCarry (wordSum bytes)

/-- Zero the two bytes at offsets `off` and `off + 1` of a buffer
(the `memset(..., 0, sizeof(uint16_t))` of `udp_write_checksum`). -/
def zero2At (buf : List Nat) (off : Nat) : List Nat :=
  (buf.set off 0).set (off + 1) 0

/-- Store a 16-bit value big-endian at offsets `off` and `off + 1` of a
buffer. -/
def writeBE16At (buf : List Nat) (off v : Nat) : List Nat :=
  (buf.set off (v / 256 % 256)).set (off + 1) (v % 256)

/-- Outcome of `udp_write_checksum`: the C return value, the error kind when
it fails, the transport segment buffer and the pseudo-header buffer after the
call, and a ledger of how many scratch buffers the call `malloc`ed and
`free`d. -/
structure WCResult where
  ok : Bool
  err : Option ProtoError
  udp_segment : List Nat
  ip_psh : Option (List Nat)
  allocated : Nat
  freed : Nat
deriving DecidableEq, Repr

/-- `udp_write_checksum` of `udp.c`, statement by statement.
`udp_segment` is the buffer `udp_header` points into (UDP header at offset 0
followed by any payload); `ip_psh` is the pseudo-header buffer argument, with
`none` for a NULL pointer; `allocOk` is the allocation oracle standing for
the success of the one `malloc`.

The C body: a NULL `ip_psh` sets `errno = EINVAL` and returns false; then
`size_psh = ntohs(udp_hdr->LENGTH) + buffer_get_size(ip_psh)` and a scratch
buffer of that size is allocated (on failure: return false); the pseudo
header bytes are copied to its start, the first `ntohs(udp_hdr->LENGTH)`
bytes of the transport segment after them, the two bytes at the checksum
field's offset inside the scratch buffer are zeroed, `csum` of the scratch
buffer is stored into the header's checksum field, and the scratch buffer is
freed.  `ntohs(udp_hdr->LENGTH)` is, on any host, the big-endian value of the
two bytes at offset 4, and the 16-bit store into the checksum field lands on
the wire in big-endian, so both are modelled byte-exactly by `be16read` and
`writeBE16At`. -/
def udp_write_checksum (udp_segment : List Nat) (ip_psh : Option (List Nat))
    (allocOk : Bool) : WCResult :=
  match ip_psh with
  | none =>
      { ok := false, err := some ProtoError.MissingPseudoHeader,
        udp_segment := udp_segment, ip_psh := none, allocated := 0, freed := 0 }
  | some psh =>
      let transportLength := be16read udp_segment 4
      if allocOk then
        let scratch := zero2At (psh ++ udp_segment.take transportLength) (psh.length + 6)
        { ok := true, err := none,
          udp_segment := writeBE16At udp_segment 6 (csum scratch),
          ip_psh := some psh, allocated := 1, freed := 1 }
      else
        { ok := false, err := some ProtoError.AllocationFailure,
          udp_segment := udp_segment, ip_psh := some psh, allocated := 0, freed := 0 }

/-- The version nibble of an IP segment: high nibble of its first byte. -/
def ip_version (ip_segment : List Nat) : Nat :=
  ip_segment.getD 0 0 / 16

/-- Modelled from the spec: `ipv4_pseudo_header_create` declared in
`ipv4_pseudo_header.h` (its implementation is not among the sources).  Per
the specification it extracts from an IPv4 header the 12-byte pseudo-header
layout — source address (4 bytes at offset 12), destination address (4 bytes
at offset 16), a zero byte, the protocol number (offset 9), and the 2-byte
transport length (total length minus the IHL-encoded header length) — and
fails with `TruncatedInput` on inputs shorter than the 20-byte minimum IPv4
header. -/
def ipv4_pseudo_header_create (ip_segment : List Nat) : Except ProtoError (List Nat) :=
  if ip_segment.length < 20 then Except.error ProtoError.TruncatedInput
  else
    let ihl := ip_segment.getD 0 0 % 16 * 4
    let transportLength := be16read ip_segment 2 - ihl
    Except.ok ((ip_segment.drop 12).take 4 ++ (ip_segment.drop 16).take 4 ++
      [0, ip_segment.getD 9 0] ++
      [transportLength / 256 % 256, transportLength % 256])

/-- `udp_create_pseudo_header` of `udp.c`: the IPv4/IPv6 dispatch is
commented out (`TODO`), and the function unconditionally calls
`ipv4_pseudo_header_create` on its argument, whatever its version nibble. -/
def udp_create_pseudo_header (ip_segment : List Nat) : Except ProtoError (List Nat) :=
  ipv4_pseudo_header_create ip_segment

/-! ## Helper lemmas -/

/-- `List.set` at one index leaves `getD` at any other index unchanged. -/
theorem getD_set_ne (l : List Nat) (j v i d : Nat) (h : i ≠ j) :
    (l.set j v).getD i d = l.getD i d := by
  simp [List.getD_eq_getElem?_getD, List.getElem?_set_ne (fun hji => h hji.symm)]

/-! ## Claims -/

/-- C4: the UDP field descriptor table declares exactly the four fields
src_port, dst_port, length, checksum, and `udp_get_num_fields` returns their
number, 4. -/
theorem C4_udp_get_num_fields_eq_four :
    udp_get_num_fields = 4 ∧
    udp_fields.map protocol_field.key = ["src_port", "dst_port", "length", "checksum"] :=
  ⟨rfl, rfl⟩

/-- C8: `udp_get_header_size` ignores its header-pointer argument (NULL or
not) and returns the constant 8, the size of the fixed UDP header. -/
theorem C8_udp_get_header_size_const (udp_header : Option (List Nat)) :
    udp_get_header_size udp_header = 8 ∧
    ∀ other : Option (List Nat), udp_get_header_size udp_header = udp_get_header_size other :=
  ⟨rfl, fun _ => rfl⟩

/-- C5: `udp_write_default_header` always returns the UDP header size 8; with
a NULL buffer it writes nothing, with a non-null buffer it copies the 8-byte
default template over the start of the buffer; the returned size is the same
in both modes and agrees with `udp_get_header_size`. -/
theorem C5_udp_write_default_header_modes (bigEndianHost : Bool) :
    udp_write_default_header bigEndianHost none = (8, none) ∧
    (∀ b : List Nat, udp_write_default_header bigEndianHost (some b)
        = (8, some (udphdrBytes bigEndianHost udp_default ++ b.drop 8))) ∧
    (∀ o : Option (List Nat),
        (udp_write_default_header bigEndianHost o).1 = udp_get_header_size none) := by
  refine ⟨rfl, fun _ => rfl, fun o => ?_⟩
  cases o <;> rfl

/-- C3: `udp_write_checksum` with a NULL pseudo-header fails with
`MissingPseudoHeader` (the C sets `errno = EINVAL` and returns false) and
leaves the transport segment buffer byte-for-byte unchanged, whatever the
allocation oracle says. -/
theorem C3_missing_pseudo_header (udp_segment : List Nat) (allocOk : Bool) :
    (udp_write_checksum udp_segment none allocOk).ok = false ∧
    (udp_write_checksum udp_segment none allocOk).err = some ProtoError.MissingPseudoHeader ∧
    (udp_write_checksum udp_segment none allocOk).udp_segment = udp_segment :=
  ⟨rfl, rfl, rfl⟩

/-- C7: when scratch-buffer allocation fails, `udp_write_checksum` fails with
`AllocationFailure` and leaves the transport segment unmodified; and on every
path (missing pseudo-header, allocation failure, success) the number of
scratch buffers allocated equals the number freed — no leak on any exit
path. -/
theorem C7_alloc_failure_and_release :
    (∀ (udp_segment psh : List Nat),
        (udp_write_checksum udp_segment (some psh) false).ok = false ∧
        (udp_write_checksum udp_segment (some psh) false).err
            = some ProtoError.AllocationFailure ∧
        (udp_write_checksum udp_segment (some psh) false).udp_segment = udp_segment) ∧
    (∀ (s : List Nat) (p : Option (List Nat)) (a : Bool),
        (udp_write_checksum s p a).allocated = (udp_write_checksum s p a).freed) := by
  refine ⟨fun _ _ => ⟨rfl, rfl, rfl⟩, fun s p a => ?_⟩
  cases p <;> cases a <;> rfl

/-- C10: `udp_write_checksum` never modifies the pseudo-header buffer: on
every path (missing pseudo-header, allocation failure, success) the
pseudo-header argument comes back byte-for-byte unchanged. -/
theorem C10_psh_unmodified (s : List Nat) (p : Option (List Nat)) (a : Bool) :
    (udp_write_checksum s p a).ip_psh = p := by
  cases p <;> cases a <;> rfl

/-- C2: code-bug evaluation.  `udp_default` stores its port values as
host-order integers with no `htons`, so on a little-endian host the default
header's bytes are `[12, 11, 12, 11, 0, 0, 0, 0]` and the network-byte-order
`readField` returns 3083 (the byte swap of 2828) for both port fields, not
2828; only on a big-endian host does the round-trip return the default value
table (2828, 2828, 0, 0). -/
theorem C2_default_header_roundtrip_endianness_bug :
    (udp_write_default_header false (some (List.replicate 8 0))).2
        = some [12, 11, 12, 11, 0, 0, 0, 0] ∧
    (∀ f ∈ udp_fields, (f.key = "src_port" ∨ f.key = "dst_port") →
        readField [12, 11, 12, 11, 0, 0, 0, 0] f = 3083) ∧
    (3083 : Nat) ≠ 2828 ∧
    (∀ f ∈ udp_fields,
        readField (udphdrBytes true udp_default) f
            = if f.offset ≤ 2 then 2828 else 0) := by
  refine ⟨by decide, by decide, by decide, by decide⟩

/-- A 20-byte IP segment whose version nibble is 5 (first byte 0x50 = 80). -/
def seg_v5 : List Nat := 80 :: List.replicate 19 0

/-- C6: code-bug evaluation.  `udp_create_pseudo_header` performs no version
dispatch at all (the IPv4/IPv6 dispatch is commented out): on a 20-byte
segment whose version nibble is 5 it does not fail with
`UnsupportedIpVersion` but happily returns an IPv4-layout pseudo-header, and
on every input it simply equals `ipv4_pseudo_header_create`. -/
theorem C6_no_version_dispatch :
    ip_version seg_v5 = 5 ∧
    udp_create_pseudo_header seg_v5 = Except.ok (List.replicate 12 0) ∧
    ∀ s : List Nat, udp_create_pseudo_header s = ipv4_pseudo_header_create s :=
  ⟨by decide, rfl, fun _ => rfl⟩

/-- C1: on the success path (pseudo-header present, allocation succeeds,
and the segment is well-formed: its length field `transportLength` is at
least the 8 header bytes and at most the bytes actually in the buffer),
`udp_write_checksum` builds a scratch buffer of size
`len(psh) + transportLength` — the pseudo-header bytes followed by the first
`transportLength` bytes of the transport segment with the 2 bytes at the
checksum field's offset zeroed (an offset that lies inside the scratch
buffer) — and stores `csum` of that scratch buffer into the header's
checksum field.  `transportLength` is `be16read udp_segment 4`, the header's
own length field, independent of the buffer's length. -/
theorem C1_write_checksum_scratch_and_store
    (udp_segment psh : List Nat)
    (hlen : 8 ≤ be16read udp_segment 4)
    (hseg : be16read udp_segment 4 ≤ udp_segment.length) :
    (udp_write_checksum udp_segment (some psh) true).ok = true ∧
    (zero2At (psh ++ udp_segment.take (be16read udp_segment 4)) (psh.length + 6)).length
        = psh.length + be16read udp_segment 4 ∧
    psh.length + 6 + 2 ≤ psh.length + be16read udp_segment 4 ∧
    (udp_write_checksum udp_segment (some psh) true).udp_segment
        = writeBE16At udp_segment 6
            (csum (zero2At (psh ++ udp_segment.take (be16read udp_segment 4))
              (psh.length + 6))) := by
  refine ⟨rfl, ?_, by omega, rfl⟩
  simp [zero2At, Nat.min_eq_left hseg]

/-- Concrete witness transport segment: an 8-byte UDP header whose length
field (bytes 4 and 5, big-endian) is 8. -/
def wseg : List Nat := [11, 12, 11, 12, 0, 8, 0, 0]

/-- Concrete witness IPv4 pseudo-header: 12 bytes, protocol number 17,
transport length 8. -/
def wpsh : List Nat := [192, 168, 0, 1, 192, 168, 0, 2, 0, 17, 0, 8]

/-- C1 witness: the theorem applied at the concrete segment `wseg` and
pseudo-header `wpsh`. -/
theorem C1_write_checksum_scratch_and_store_witness :
    (8 ≤ be16read wseg 4 ∧ be16read wseg 4 ≤ wseg.length) ∧
    ((udp_write_checksum wseg (some wpsh) true).ok = true ∧
     (zero2At (wpsh ++ wseg.take (be16read wseg 4)) (wpsh.length + 6)).length
         = wpsh.length + be16read wseg 4 ∧
     wpsh.length + 6 + 2 ≤ wpsh.length + be16read wseg 4 ∧
     (udp_write_checksum wseg (some wpsh) true).udp_segment
         = writeBE16At wseg 6
             (csum (zero2At (wpsh ++ wseg.take (be16read wseg 4)) (wpsh.length + 6)))) :=
  ⟨⟨by decide, by decide⟩,
   C1_write_checksum_scratch_and_store wseg wpsh (by decide) (by decide)⟩

/-- C9: on the success path, `udp_write_checksum` modifies only the two
bytes of the checksum field (offsets 6 and 7) of the transport segment
buffer: the buffer keeps its length and every byte at any other index —
header bytes and any trailing payload alike — is unchanged. -/
theorem C9_write_checksum_frame
    (udp_segment psh : List Nat)
    (hlen : 8 ≤ be16read udp_segment 4)
    (hseg : be16read udp_segment 4 ≤ udp_segment.length) :
    (udp_write_checksum udp_segment (some psh) true).udp_segment.length
        = udp_segment.length ∧
    ∀ i : Nat, i ≠ 6 → i ≠ 7 →
      (udp_write_checksum udp_segment (some psh) true).udp_segment.getD i 0
          = udp_segment.getD i 0 := by
  constructor
  · simp [udp_write_checksum, writeBE16At]
  · intro i h6 h7
    show ((udp_segment.set 6 _).set (6 + 1) _).getD i 0 = udp_segment.getD i 0
    rw [getD_set_ne _ _ _ _ _ (show i ≠ 6 + 1 by omega),
      getD_set_ne _ _ _ _ _ h6]

/-- C9 witness: the theorem applied at the concrete segment `wseg` and
pseudo-header `wpsh`. -/
theorem C9_write_checksum_frame_witness :
    (8 ≤ be16read wseg 4 ∧ be16read wseg 4 ≤ wseg.length) ∧
    ((udp_write_checksum wseg (some wpsh) true).udp_segment.length = wseg.length ∧
     ∀ i : Nat, i ≠ 6 → i ≠ 7 →
       (udp_write_checksum wseg (some wpsh) true).udp_segment.getD i 0
           = wseg.getD i 0) :=
  ⟨⟨by decide, by decide⟩, C9_write_checksum_frame wseg wpsh (by decide) (by decide)⟩
